import Mathlib

/-!
Verification development for the charizard transit carbon-footprint service.

Shallow embedding conventions:
* C++ `double` is embedded as `ℚ` (exact arithmetic),
* `std::int64_t` timestamps as `Int`,
* `std::string` as `String`,
* throwing functions as `Except String _`,
* the wall clock is passed explicitly as a `now : Int` parameter.
-/

instance {ε α : Type} [DecidableEq ε] [DecidableEq α] : DecidableEq (Except ε α) := fun x y =>
  match x, y with
  | .ok a, .ok b => if h : a = b then .isTrue (by rw [h]) else .isFalse (by simp [h])
  | .error a, .error b => if h : a = b then .isTrue (by rw [h]) else .isFalse (by simp [h])
  | .ok _, .error _ => .isFalse (by simp)
  | .error _, .ok _ => .isFalse (by simp)

/-- One trip record (struct TransitEvent in include/storage.hpp). -/
structure TransitEvent where
  user_id : String
  mode : String
  fuel_type : String := ""
  vehicle_size : String := ""
  occupancy : ℚ := 1
  distance_km : ℚ := 0
  ts : Int := 0
deriving Repr, DecidableEq

/-- One emission rate entry (struct EmissionFactor in include/emission_factors.hpp). -/
structure EmissionFactor where
  mode : String
  fuel_type : String
  vehicle_size : String
  kg_co2_per_km : ℚ
  source : String
  updated_at : Int := 0
deriving Repr, DecidableEq

/-- Per-user derived totals (struct FootprintSummary in include/storage.hpp). -/
structure FootprintSummary where
  lifetime_kg_co2 : ℚ := 0
  week_kg_co2 : ℚ := 0
  month_kg_co2 : ℚ := 0
deriving Repr, DecidableEq

/-- Legacy per-mode factor helper (inline emission_factor_for in include/storage.hpp). -/
def emission_factor_for (mode : String) : ℚ :=
  if mode = "taxi" ∨ mode = "car" then 18/100
  else if mode = "bus" then 8/100
  else if mode = "subway" ∨ mode = "train" then 4/100
  else if mode = "bike" ∨ mode = "walk" then 0
  else 1/10

/-- Detailed DEFRA 2024 dataset (DefaultEmissionFactors::defra_2024_factors in
src/emission_factors.cpp). -/
def defra_2024_factors : List EmissionFactor :=
  [ ⟨"car", "petrol", "small", 167/1000, "DEFRA-2024", 0⟩,
    ⟨"car", "petrol", "medium", 203/1000, "DEFRA-2024", 0⟩,
    ⟨"car", "petrol", "large", 291/1000, "DEFRA-2024", 0⟩,
    ⟨"car", "diesel", "small", 142/1000, "DEFRA-2024", 0⟩,
    ⟨"car", "diesel", "medium", 168/1000, "DEFRA-2024", 0⟩,
    ⟨"car", "diesel", "large", 241/1000, "DEFRA-2024", 0⟩,
    ⟨"car", "electric", "small", 74/1000, "DEFRA-2024", 0⟩,
    ⟨"car", "electric", "medium", 88/1000, "DEFRA-2024", 0⟩,
    ⟨"car", "electric", "large", 115/1000, "DEFRA-2024", 0⟩,
    ⟨"car", "hybrid", "small", 132/1000, "DEFRA-2024", 0⟩,
    ⟨"car", "hybrid", "medium", 155/1000, "DEFRA-2024", 0⟩,
    ⟨"car", "hybrid", "large", 210/1000, "DEFRA-2024", 0⟩,
    ⟨"taxi", "petrol", "medium", 203/1000, "DEFRA-2024", 0⟩,
    ⟨"taxi", "diesel", "medium", 168/1000, "DEFRA-2024", 0⟩,
    ⟨"taxi", "electric", "medium", 88/1000, "DEFRA-2024", 0⟩,
    ⟨"taxi", "hybrid", "medium", 155/1000, "DEFRA-2024", 0⟩,
    ⟨"bus", "", "", 73/1000, "DEFRA-2024", 0⟩,
    ⟨"subway", "", "", 41/1000, "DEFRA-2024", 0⟩,
    ⟨"train", "", "", 51/1000, "DEFRA-2024", 0⟩,
    ⟨"bike", "", "", 0, "DEFRA-2024", 0⟩,
    ⟨"walk", "", "", 0, "DEFRA-2024", 0⟩ ]

/-- Exact-triple lookup in the detailed dataset
(DefaultEmissionFactors::get_default_factor in src/emission_factors.cpp). -/
def get_default_factor (mode fuel_type vehicle_size : String) : Option EmissionFactor :=
  defra_2024_factors.find? fun f =>
    f.mode = mode && f.fuel_type = fuel_type && f.vehicle_size = vehicle_size

/-- Hardcoded per-mode fallback used by calculate_co2_emissions when the detailed
lookup misses (the if/else ladder in src/emission_calculator.cpp, lines 25-49). -/
def fallback_factor (mode fuel_type vehicle_size : String) : EmissionFactor :=
  if mode = "car" ∨ mode = "taxi" then ⟨mode, fuel_type, vehicle_size, 18/100, "FALLBACK", 0⟩
  else if mode = "bus" then ⟨mode, "", "", 73/1000, "FALLBACK", 0⟩
  else if mode = "subway" ∨ mode = "train" ∨ mode = "underground" ∨ mode = "rail" then
    ⟨mode, "", "", 41/1000, "FALLBACK", 0⟩
  else if mode = "bike" ∨ mode = "walk" then ⟨mode, "", "", 0, "FALLBACK", 0⟩
  else ⟨mode, "", "", 1/10, "FALLBACK", 0⟩

/-- The factor calculate_co2_emissions ends up with: the detailed entry when the
exact triple is present, otherwise the fallback ladder entry. -/
def selected_factor (mode fuel_type vehicle_size : String) : EmissionFactor :=
  (get_default_factor mode fuel_type vehicle_size).getD (fallback_factor mode fuel_type vehicle_size)

/-- DEFRA-based emission calculation (calculate_co2_emissions in
src/emission_calculator.cpp); throws are modelled as Except.error. -/
def calculate_co2_emissions (mode fuel_type vehicle_size : String) (occupancy distance_km : ℚ) :
    Except String ℚ :=
  if distance_km < 0 then .error "Distance cannot be negative"
  else if occupancy < 1 then .error "Occupancy must be at least 1.0"
  else
    let factor := selected_factor mode fuel_type vehicle_size
    let total := factor.kg_co2_per_km * distance_km
    .ok (if mode = "car" ∨ mode = "taxi" then total / occupancy else total)

/-- Allowed transit modes (kAllowedTransitModes in src/transit_validator.cpp). -/
def kAllowedTransitModes : List String :=
  ["taxi", "car", "bus", "subway", "train", "bike", "walk"]

/-- Validating TransitEvent constructor (TransitEvent::TransitEvent in
src/transit_validator.cpp); `now` is the wall clock read when ts_ = 0.
The constructor touches no storage; failure is the thrown exception, modelled
as Except.error, and no event value exists on failure. -/
def mkTransitEvent (user_id mode : String) (distance_km : ℚ) (ts now : Int) :
    Except String TransitEvent :=
  if user_id = "" then .error "user_id must not be empty."
  else if distance_km < 0 then .error "Negative value for distance_km is not allowed."
  else if mode ∉ kAllowedTransitModes then .error "invalid mode"
  else .ok { user_id := user_id, mode := mode, fuel_type := "", vehicle_size := "",
             occupancy := 1, distance_km := distance_km,
             ts := if ts = 0 then now else ts }

/-- Point lookup in an association list; models std::unordered_map::find.
The maps in InMemoryStore have at most one entry per key, so the first match
is the entry. -/
def lookupAssoc {α : Type} : List (String × α) → String → Option α
  | [], _ => none
  | (k, v) :: rest, key => if k = key then some v else lookupAssoc rest key

/-- Key removal from an association list; models std::unordered_map::erase. -/
def eraseAssoc {α : Type} : List (String × α) → String → List (String × α)
  | [], _ => []
  | (k, v) :: rest, key => if k = key then eraseAssoc rest key else (k, v) :: eraseAssoc rest key

/-- Insert-or-replace in an association list; models map[key] = value. -/
def upsertAssoc {α : Type} : List (String × α) → String → α → List (String × α)
  | [], key, v => [(key, v)]
  | (k, v0) :: rest, key, v =>
    if k = key then (key, v) :: rest else (k, v0) :: upsertAssoc rest key v

/-- Append an event to a user's log, creating the log when absent; models
events_[ev.user_id].push_back(ev). -/
def appendEvent : List (String × List TransitEvent) → String → TransitEvent →
    List (String × List TransitEvent)
  | [], key, ev => [(key, [ev])]
  | (k, vs) :: rest, key, ev =>
    if k = key then (k, vs ++ [ev]) :: rest else (k, vs) :: appendEvent rest key ev

/-- The event-relevant state of InMemoryStore (include/storage.hpp): the per-user
event log events_ and the per-user summary cache cache_. -/
structure InMemoryStore where
  events : List (String × List TransitEvent) := []
  cache : List (String × FootprintSummary) := []
deriving Repr, DecidableEq

/-- The kg a single event contributes inside InMemoryStore::summarize and
global_average_weekly: emission_factor_for(ev.mode) * ev.distance_km. -/
def event_kg (ev : TransitEvent) : ℚ :=
  emission_factor_for ev.mode * ev.distance_km

/-- InMemoryStore::add_event: append to the user's log and invalidate the
user's cache entry. -/
def add_event (st : InMemoryStore) (ev : TransitEvent) : InMemoryStore :=
  { events := appendEvent st.events ev.user_id ev
    cache := eraseAssoc st.cache ev.user_id }

/-- The loop body of InMemoryStore::summarize: fold one event into the running
summary, windowing on ev.ts >= week_start and ev.ts >= month_start. -/
def summarize_step (now : Int) (s : FootprintSummary) (ev : TransitEvent) : FootprintSummary :=
  let kg := event_kg ev
  { lifetime_kg_co2 := s.lifetime_kg_co2 + kg
    week_kg_co2 := if now - 7 * 24 * 3600 ≤ ev.ts then s.week_kg_co2 + kg else s.week_kg_co2
    month_kg_co2 := if now - 30 * 24 * 3600 ≤ ev.ts then s.month_kg_co2 + kg else s.month_kg_co2 }

/-- InMemoryStore::summarize, with the wall clock passed as now.  Returns the
summary together with the post-call store (the call may populate the cache). -/
def summarize (st : InMemoryStore) (user : String) (now : Int) :
    FootprintSummary × InMemoryStore :=
  match lookupAssoc st.cache user with
  | some s => (s, st)
  | none =>
    match lookupAssoc st.events user with
    | none => (⟨0, 0, 0⟩, st)
    | some evs =>
      let s := evs.foldl (summarize_step now) ⟨0, 0, 0⟩
      (s, { st with cache := upsertAssoc st.cache user s })

/-- The inner per-user loop of InMemoryStore::global_average_weekly: running
(u_week, has) pair over the user's events. -/
def gaw_user_fold (week_start : Int) (evs : List TransitEvent) : ℚ × Bool :=
  evs.foldl
    (fun acc ev => if week_start ≤ ev.ts then (acc.1 + event_kg ev, true) else acc)
    (0, false)

/-- The per-user body of the outer loop of InMemoryStore::global_average_weekly:
accumulate (total, users_with_data) when the user has an in-window event. -/
def gaw_outer_step (week_start : Int) (acc : ℚ × Nat) (p : String × List TransitEvent) :
    ℚ × Nat :=
  let r := gaw_user_fold week_start p.2
  if r.2 then (acc.1 + r.1, acc.2 + 1) else acc

/-- InMemoryStore::global_average_weekly, with the wall clock passed as now. -/
def global_average_weekly (st : InMemoryStore) (now : Int) : ℚ :=
  let week_start := now - 7 * 24 * 3600
  let acc := st.events.foldl (gaw_outer_step week_start) ((0 : ℚ), (0 : Nat))
  if acc.2 = 0 then 0 else acc.1 / (acc.2 : ℚ)

/-- Boolean window test: the event's timestamp is at least the window start.
The aggregation code writes it as ev.ts >= window_start. -/
def tsAtLeast (bound : Int) (ev : TransitEvent) : Bool :=
  decide (bound ≤ ev.ts)

/-- A user's in-window total as summed by the aggregation loops. -/
def user_week_total (week_start : Int) (evs : List TransitEvent) : ℚ :=
  ((evs.filter (tsAtLeast week_start)).map event_kg).sum

theorem lookupAssoc_erase_self {α : Type} (m : List (String × α)) (key : String) :
    lookupAssoc (eraseAssoc m key) key = none := by
  induction m with
  | nil => rfl
  | cons p rest ih =>
    obtain ⟨k, v⟩ := p
    by_cases h : k = key <;> simp [eraseAssoc, h, lookupAssoc, ih]

theorem lookupAssoc_upsert_self {α : Type} (m : List (String × α)) (key : String) (v : α) :
    lookupAssoc (upsertAssoc m key v) key = some v := by
  induction m with
  | nil => simp [upsertAssoc, lookupAssoc]
  | cons p rest ih =>
    obtain ⟨k, v0⟩ := p
    by_cases h : k = key <;> simp [upsertAssoc, h, lookupAssoc, ih]

theorem lookupAssoc_appendEvent_self (m : List (String × List TransitEvent)) (key : String)
    (ev : TransitEvent) :
    lookupAssoc (appendEvent m key ev) key = some ((lookupAssoc m key).getD [] ++ [ev]) := by
  induction m with
  | nil => simp [appendEvent, lookupAssoc]
  | cons p rest ih =>
    obtain ⟨k, vs⟩ := p
    by_cases h : k = key <;> simp [appendEvent, h, lookupAssoc, ih]

theorem foldl_summarize_step (now : Int) (evs : List TransitEvent) (s0 : FootprintSummary) :
    evs.foldl (summarize_step now) s0 =
      ⟨s0.lifetime_kg_co2 + (evs.map event_kg).sum,
       s0.week_kg_co2 + user_week_total (now - 7 * 24 * 3600) evs,
       s0.month_kg_co2 + user_week_total (now - 30 * 24 * 3600) evs⟩ := by
  induction evs generalizing s0 with
  | nil => simp [user_week_total]
  | cons ev rest ih =>
    rw [List.foldl_cons, ih]
    simp only [summarize_step, user_week_total, List.filter_cons, tsAtLeast, List.map_cons,
      List.sum_cons]
    by_cases h7 : now - 7 * 24 * 3600 ≤ ev.ts <;>
      by_cases h30 : now - 30 * 24 * 3600 ≤ ev.ts <;>
        simp only [h7, h30, decide_True, decide_False, Bool.false_eq_true, if_true, if_false,
          ite_true, ite_false, List.map_cons, List.sum_cons, FootprintSummary.mk.injEq] <;>
        refine ⟨by ring_nf, by ring_nf, by ring_nf⟩

theorem gaw_user_fold_eq (ws : Int) (evs : List TransitEvent) :
    gaw_user_fold ws evs = (user_week_total ws evs, evs.any (tsAtLeast ws)) := by
  suffices h : ∀ (q : ℚ) (b : Bool),
      evs.foldl (fun acc ev => if ws ≤ ev.ts then (acc.1 + event_kg ev, true) else acc) (q, b) =
        (q + user_week_total ws evs, b || evs.any (tsAtLeast ws)) by
    simpa [gaw_user_fold, user_week_total] using h 0 false
  induction evs with
  | nil => intro q b; simp [user_week_total]
  | cons ev rest ih =>
    intro q b
    by_cases h : ws ≤ ev.ts <;>
      simp [h, tsAtLeast, user_week_total, List.filter_cons, ih, add_assoc]

/-- Specification-side definition, following the spec's words for
global_average_weekly: the arithmetic mean of per-user weekly totals over
exactly the users having at least one event in the trailing 7 days, and 0
when there is no such user. -/
def specGlobalAverageWeekly (st : InMemoryStore) (now : Int) : ℚ :=
  let ws := now - 7 * 24 * 3600
  let active := st.events.filter fun p => p.2.any (tsAtLeast ws)
  if active = [] then 0
  else (active.map fun p => user_week_total ws p.2).sum / (active.length : ℚ)

theorem gaw_outer_step_eq (ws : Int) (t : ℚ) (n : Nat) (p : String × List TransitEvent) :
    gaw_outer_step ws (t, n) p =
      if p.2.any (tsAtLeast ws) then (t + user_week_total ws p.2, n + 1) else (t, n) := by
  rw [gaw_outer_step, gaw_user_fold_eq]

theorem gaw_outer_fold (ws : Int) (l : List (String × List TransitEvent)) :
    ∀ (t : ℚ) (n : Nat),
      l.foldl (gaw_outer_step ws) (t, n) =
      (t + ((l.filter fun p => p.2.any (tsAtLeast ws)).map fun p => user_week_total ws p.2).sum,
       n + (l.filter fun p => p.2.any (tsAtLeast ws)).length) := by
  induction l with
  | nil => intro t n; simp
  | cons p rest ih =>
    intro t n
    rw [List.foldl_cons, gaw_outer_step_eq]
    cases hany : p.2.any (tsAtLeast ws) with
    | true =>
      simp only [if_true, ih, List.filter_cons, hany, List.map_cons, List.sum_cons,
        List.length_cons, Prod.mk.injEq]
      exact ⟨by ring_nf, by omega⟩
    | false =>
      simp only [if_false, Bool.false_eq_true, ite_false, ih, List.filter_cons, hany]

theorem defra_rates_nonneg : ∀ f ∈ defra_2024_factors, 0 ≤ f.kg_co2_per_km := by
  intro f hf
  fin_cases hf <;> norm_num

theorem selected_factor_rate_nonneg (mode fuel size : String) :
    0 ≤ (selected_factor mode fuel size).kg_co2_per_km := by
  unfold selected_factor
  cases h : get_default_factor mode fuel size with
  | some fac =>
    have hmem : fac ∈ defra_2024_factors := List.mem_of_find?_eq_some h
    simpa using defra_rates_nonneg fac hmem
  | none =>
    simp only [Option.getD_none]
    unfold fallback_factor
    split_ifs <;> norm_num

/-- C4: calculate first looks up the exact (mode, fuel_type, vehicle_size) triple in
the detailed DEFRA dataset; when that lookup is absent it falls back to per-mode
constants ignoring fuel and size (0.18 car/taxi, 0.073 bus, 0.041
subway/train/underground/rail, 0.0 bike/walk, 0.1 otherwise), labeling the factor
with the FALLBACK source. -/
theorem C4_fallback_ladder (mode fuel size : String) :
    (∀ f, get_default_factor mode fuel size = some f → selected_factor mode fuel size = f) ∧
    (get_default_factor mode fuel size = none →
      (selected_factor mode fuel size).source = "FALLBACK" ∧
      (selected_factor mode fuel size).kg_co2_per_km =
        (if mode = "car" ∨ mode = "taxi" then 18/100
         else if mode = "bus" then 73/1000
         else if mode = "subway" ∨ mode = "train" ∨ mode = "underground" ∨ mode = "rail" then
           41/1000
         else if mode = "bike" ∨ mode = "walk" then 0
         else 1/10)) := by
  constructor
  · intro f h
    simp [selected_factor, h]
  · intro h
    simp only [selected_factor, h, Option.getD_none]
    unfold fallback_factor
    constructor
    · split_ifs <;> rfl
    · split_ifs <;> rfl

/-- C4 witness: the triple (underground, "", "") is absent from the detailed dataset,
so the selected factor is the 0.041 fallback labeled FALLBACK. -/
theorem C4_fallback_ladder_witness :
    (selected_factor "underground" "" "").kg_co2_per_km = 41/1000 ∧
    (selected_factor "underground" "" "").source = "FALLBACK" := by
  have h := (C4_fallback_ladder "underground" "" "").2 (by decide)
  exact ⟨h.2.trans (by simp), h.1⟩

/-- C5: for car and taxi, the result with occupancy k equals the occupancy-1 result
divided by k; for bus, subway, train, bike and walk the result is independent of
occupancy; concretely calculate("car","petrol","small",1,10) = 1.67,
calculate("car","petrol","small",3,10) is one third of it, and
calculate("bike","","",1,50) = 0. -/
theorem C5_occupancy_semantics (fuel size : String) (k D : ℚ) (hk : 1 ≤ k) (hD : 0 ≤ D) :
    (∀ mode, mode = "car" ∨ mode = "taxi" → ∀ q,
      calculate_co2_emissions mode fuel size 1 D = .ok q →
      calculate_co2_emissions mode fuel size k D = .ok (q / k)) ∧
    (∀ mode, mode = "bus" ∨ mode = "subway" ∨ mode = "train" ∨ mode = "bike" ∨ mode = "walk" →
      calculate_co2_emissions mode fuel size k D = calculate_co2_emissions mode fuel size 1 D) ∧
    calculate_co2_emissions "car" "petrol" "small" 1 10 = .ok (167/100) ∧
    calculate_co2_emissions "car" "petrol" "small" 3 10 = .ok ((167/100) / 3) ∧
    calculate_co2_emissions "bike" "" "" 1 50 = .ok 0 := by
  have hD' : ¬ D < 0 := not_lt.2 hD
  have hk' : ¬ k < 1 := not_lt.2 hk
  have h1 : ¬ (1 : ℚ) < 1 := lt_irrefl 1
  refine ⟨?_, ?_, ?_, ?_, ?_⟩
  · rintro mode (h | h) q hq <;> subst h <;>
      simp only [calculate_co2_emissions, hD', hk', h1, if_false, ite_false, if_true,
        Except.ok.injEq, true_or, or_true, ite_true] at hq ⊢ <;>
      rw [← hq, div_one]
  · rintro mode (h | h | h | h | h) <;> subst h <;>
      simp [calculate_co2_emissions, hD', hk', h1]
  · simp [calculate_co2_emissions, selected_factor, get_default_factor, defra_2024_factors,
      List.find?]
    norm_num
  · simp [calculate_co2_emissions, selected_factor, get_default_factor, defra_2024_factors,
      List.find?]
    norm_num
  · simp [calculate_co2_emissions, selected_factor, get_default_factor, defra_2024_factors,
      List.find?]

/-- C5 witness at fuel=petrol, size=small, k=3, D=10. -/
theorem C5_occupancy_semantics_witness :
    calculate_co2_emissions "car" "petrol" "small" 3 10 = .ok ((167/100) / 3) :=
  (C5_occupancy_semantics "petrol" "small" 3 10 (by norm_num) (by norm_num)).2.2.2.1

/-- C7: calculate fails with an invalid-input error whenever distance_km < 0 or
occupancy < 1, for every mode, independently of the factor table (the failure does
not depend on the mode/fuel/size triple); for inputs meeting both preconditions it
returns a value. -/
theorem C7_preconditions (mode fuel size : String) (occ d : ℚ) :
    (d < 0 → calculate_co2_emissions mode fuel size occ d = .error "Distance cannot be negative") ∧
    (0 ≤ d → occ < 1 →
      calculate_co2_emissions mode fuel size occ d = .error "Occupancy must be at least 1.0") ∧
    ((d < 0 ∨ occ < 1) → ∀ mode2 fuel2 size2,
      calculate_co2_emissions mode fuel size occ d =
        calculate_co2_emissions mode2 fuel2 size2 occ d) ∧
    (0 ≤ d → 1 ≤ occ → ∃ q, calculate_co2_emissions mode fuel size occ d = .ok q) := by
  refine ⟨?_, ?_, ?_, ?_⟩
  · intro h
    simp [calculate_co2_emissions, h]
  · intro hd h
    simp [calculate_co2_emissions, not_lt.2 hd, h]
  · rintro (h | h) mode2 fuel2 size2
    · simp [calculate_co2_emissions, h]
    · by_cases hd : d < 0
      · simp [calculate_co2_emissions, hd]
      · simp [calculate_co2_emissions, hd, h]
  · intro hd hocc
    refine ⟨if mode = "car" ∨ mode = "taxi"
        then (selected_factor mode fuel size).kg_co2_per_km * d / occ
        else (selected_factor mode fuel size).kg_co2_per_km * d, ?_⟩
    simp [calculate_co2_emissions, not_lt.2 hd, not_lt.2 hocc]

/-- C7 witness: negative distance fails, low occupancy fails, valid inputs succeed. -/
theorem C7_preconditions_witness :
    calculate_co2_emissions "car" "x" "y" 1 (-3) = .error "Distance cannot be negative" ∧
    calculate_co2_emissions "bus" "" "" (1/2) 5 = .error "Occupancy must be at least 1.0" ∧
    ∃ q, calculate_co2_emissions "walk" "" "" 2 10 = .ok q :=
  ⟨(C7_preconditions "car" "x" "y" 1 (-3)).1 (by norm_num),
   (C7_preconditions "bus" "" "" (1/2) 5).2.1 (by norm_num) (by norm_num),
   (C7_preconditions "walk" "" "" 2 10).2.2.2 (by norm_num) (by norm_num)⟩

/-- C8: the validating TransitEvent constructor rejects an empty user_id, a negative
distance, and any mode outside the 7-element case-sensitive allowed set (so no event
value exists and nothing is written anywhere); on success, ts = 0 is replaced by the
wall clock and a non-zero ts is kept exactly, with fuel_type/vehicle_size defaulting
to "" and occupancy to 1. -/
theorem C8_validator (user mode : String) (d : ℚ) (ts now : Int) :
    (user = "" → mkTransitEvent user mode d ts now = .error "user_id must not be empty.") ∧
    (user ≠ "" → d < 0 →
      mkTransitEvent user mode d ts now = .error "Negative value for distance_km is not allowed.") ∧
    (user ≠ "" → 0 ≤ d → mode ∉ kAllowedTransitModes →
      mkTransitEvent user mode d ts now = .error "invalid mode") ∧
    (user ≠ "" → 0 ≤ d → mode ∈ kAllowedTransitModes →
      mkTransitEvent user mode d ts now =
        .ok ⟨user, mode, "", "", 1, d, if ts = 0 then now else ts⟩) ∧
    (mkTransitEvent "u" "Car" 1 5 99 = .error "invalid mode") := by
  refine ⟨?_, ?_, ?_, ?_, by decide⟩
  · intro h
    simp [mkTransitEvent, h]
  · intro hu hd
    simp [mkTransitEvent, hu, hd]
  · intro hu hd hm
    simp [mkTransitEvent, hu, not_lt.2 hd, hm]
  · intro hu hd hm
    simp [mkTransitEvent, hu, not_lt.2 hd, hm]

/-- C8 witness: ts = 0 is replaced by the clock, non-zero ts kept, empty user rejected. -/
theorem C8_validator_witness :
    mkTransitEvent "alice" "bike" 2 0 777 = .ok ⟨"alice", "bike", "", "", 1, 2, 777⟩ ∧
    mkTransitEvent "alice" "bike" 2 555 777 = .ok ⟨"alice", "bike", "", "", 1, 2, 555⟩ ∧
    mkTransitEvent "" "bike" 2 0 777 = .error "user_id must not be empty." := by
  refine ⟨?_, ?_, (C8_validator "" "bike" 2 0 777).1 rfl⟩
  · have h := (C8_validator "alice" "bike" 2 0 777).2.2.2.1 (by simp) (by norm_num) (by decide)
    simpa using h
  · have h := (C8_validator "alice" "bike" 2 555 777).2.2.2.1 (by simp) (by norm_num) (by decide)
    simpa using h

/-- C10: for every mode/fuel/size strings, occupancy at least 1 and non-negative
distance, calculate returns normally and its result is non-negative (every detailed
rate and every fallback constant is non-negative). -/
theorem C10_total_safety (mode fuel size : String) (occ d : ℚ) (hocc : 1 ≤ occ) (hd : 0 ≤ d) :
    ∃ q, calculate_co2_emissions mode fuel size occ d = .ok q ∧ 0 ≤ q := by
  have hrate := selected_factor_rate_nonneg mode fuel size
  have hocc0 : (0 : ℚ) ≤ occ := le_trans zero_le_one hocc
  refine ⟨if mode = "car" ∨ mode = "taxi"
      then (selected_factor mode fuel size).kg_co2_per_km * d / occ
      else (selected_factor mode fuel size).kg_co2_per_km * d, ?_, ?_⟩
  · simp [calculate_co2_emissions, not_lt.2 hd, not_lt.2 hocc]
  · split_ifs
    · exact div_nonneg (mul_nonneg hrate hd) hocc0
    · exact mul_nonneg hrate hd

/-- C10 witness at a concrete valid input. -/
theorem C10_total_safety_witness :
    ∃ q, calculate_co2_emissions "car" "petrol" "small" 2 10 = .ok q ∧ 0 ≤ q :=
  C10_total_safety "car" "petrol" "small" 2 10 (by norm_num) (by norm_num)

/-- C6: global_average_weekly equals the arithmetic mean of per-user weekly totals
over exactly the users having at least one event with ts at least now minus 7 days
(users without such an event appear in neither numerator nor denominator), and is 0
when no user has an event in the window. -/
theorem C6_global_average_weekly (st : InMemoryStore) (now : Int) :
    global_average_weekly st now = specGlobalAverageWeekly st now ∧
    ((st.events.filter fun p => p.2.any (tsAtLeast (now - 7 * 24 * 3600))) = [] →
      global_average_weekly st now = 0) := by
  have hmain : global_average_weekly st now = specGlobalAverageWeekly st now := by
    simp only [global_average_weekly, specGlobalAverageWeekly, gaw_outer_fold, zero_add,
      Nat.zero_add]
    by_cases h : (st.events.filter fun p => p.2.any (tsAtLeast (now - 7 * 24 * 3600))) = []
    · simp only [h, List.length_nil, List.map_nil, List.sum_nil]
    · have hlen : (st.events.filter fun p =>
          p.2.any (tsAtLeast (now - 7 * 24 * 3600))).length ≠ 0 := by
        simpa [List.length_eq_zero] using h
      simp only [h, hlen, if_false, ite_false]
  refine ⟨hmain, fun h => ?_⟩
  rw [hmain]
  simp only [specGlobalAverageWeekly, h]
  simp

/-- C6 witness: with no events at all, the weekly average is 0. -/
theorem C6_global_average_weekly_witness : global_average_weekly ⟨[], []⟩ 1000 = 0 :=
  (C6_global_average_weekly ⟨[], []⟩ 1000).2 rfl

/-- C1 (counterexample): summarize does not use the EmissionCalculator. For a user
with one event (car, petrol, small, occupancy 1, 10 km, in window), summarize yields
lifetime 1.8 kg (legacy 0.18 per-mode factor), while the calculator yields 1.67 kg
(detailed 0.167 factor); the two disagree. -/
theorem C1_counterexample :
    (summarize ⟨[("u", [⟨"u", "car", "petrol", "small", 1, 10, 1000⟩])], []⟩ "u"
        1000).1.lifetime_kg_co2 = 9/5 ∧
    calculate_co2_emissions "car" "petrol" "small" 1 10 = .ok (167/100) ∧
    (9/5 : ℚ) ≠ 167/100 := by
  refine ⟨?_, ?_, by norm_num⟩
  · simp [summarize, lookupAssoc, summarize_step, event_kg, emission_factor_for]
    norm_num
  · simp [calculate_co2_emissions, selected_factor, get_default_factor, defra_2024_factors,
      List.find?]
    norm_num

/-- C1 (amended): with no cached summary for the user, summarize computes each
event's kg as emission_factor_for(mode) * distance_km (legacy per-mode constants
0.18 car/taxi, 0.08 bus, 0.04 subway/train, 0.0 bike/walk, 0.1 otherwise — ignoring
fuel_type, vehicle_size and occupancy), accumulating kg into lifetime always, into
week when ts ≥ now − 7×24×3600 and into month when ts ≥ now − 30×24×3600; a user
with no events gets all three fields 0. -/
theorem C1_amended_summarize (st : InMemoryStore) (u : String) (now : Int)
    (hc : lookupAssoc st.cache u = none) :
    (lookupAssoc st.events u = none → (summarize st u now).1 = ⟨0, 0, 0⟩) ∧
    (∀ evs, lookupAssoc st.events u = some evs →
      (summarize st u now).1 =
        ⟨(evs.map event_kg).sum,
         user_week_total (now - 7 * 24 * 3600) evs,
         user_week_total (now - 30 * 24 * 3600) evs⟩) := by
  constructor
  · intro h
    simp [summarize, hc, h]
  · intro evs h
    simp [summarize, hc, h, foldl_summarize_step]

/-- C1 witness: a concrete one-event store, evaluated through the amended theorem. -/
theorem C1_amended_summarize_witness :
    (summarize ⟨[("w1", [⟨"w1", "bus", "", "", 1, 5, 50⟩])], []⟩ "w1" 100).1 =
      ⟨(([(⟨"w1", "bus", "", "", 1, 5, 50⟩ : TransitEvent)]).map event_kg).sum,
       user_week_total (100 - 7 * 24 * 3600) [⟨"w1", "bus", "", "", 1, 5, 50⟩],
       user_week_total (100 - 30 * 24 * 3600) [⟨"w1", "bus", "", "", 1, 5, 50⟩]⟩ :=
  (C1_amended_summarize ⟨[("w1", [⟨"w1", "bus", "", "", 1, 5, 50⟩])], []⟩ "w1" 100 rfl).2
    [⟨"w1", "bus", "", "", 1, 5, 50⟩] (by simp [lookupAssoc])

/-- C3: summarize windows use inclusive lower bounds week_start = now − 7×24×3600
and month_start = now − 30×24×3600: a single event contributes to the week (month)
total exactly when ts ≥ week_start (month_start); concretely, an event exactly at
the boundary counts and an event one second older does not. -/
theorem C3_window_boundaries (now : Int) (ev : TransitEvent) :
    ((summarize ⟨[(ev.user_id, [ev])], []⟩ ev.user_id now).1.week_kg_co2 =
      if now - 7 * 24 * 3600 ≤ ev.ts then event_kg ev else 0) ∧
    ((summarize ⟨[(ev.user_id, [ev])], []⟩ ev.user_id now).1.month_kg_co2 =
      if now - 30 * 24 * 3600 ≤ ev.ts then event_kg ev else 0) ∧
    ((summarize ⟨[("u", [⟨"u", "car", "", "", 1, 10, 1000000 - 604800⟩])], []⟩ "u"
        1000000).1.week_kg_co2 = 9/5) ∧
    ((summarize ⟨[("u", [⟨"u", "car", "", "", 1, 10, 1000000 - 604801⟩])], []⟩ "u"
        1000000).1.week_kg_co2 = 0) ∧
    ((summarize ⟨[("u", [⟨"u", "car", "", "", 1, 10, 1000000 - 604801⟩])], []⟩ "u"
        1000000).1.month_kg_co2 = 9/5) ∧
    ((summarize ⟨[("u", [⟨"u", "car", "", "", 1, 10, 1000000 - 2592000⟩])], []⟩ "u"
        1000000).1.month_kg_co2 = 9/5) ∧
    ((summarize ⟨[("u", [⟨"u", "car", "", "", 1, 10, 1000000 - 2592001⟩])], []⟩ "u"
        1000000).1.month_kg_co2 = 0) := by
  refine ⟨?_, ?_, ?_, ?_, ?_, ?_, ?_⟩
  · by_cases h : now - 7 * 24 * 3600 ≤ ev.ts <;>
      simp [summarize, lookupAssoc, summarize_step, h]
  · by_cases h : now - 30 * 24 * 3600 ≤ ev.ts <;>
      simp [summarize, lookupAssoc, summarize_step, h]
  all_goals
    simp [summarize, lookupAssoc, summarize_step, event_kg, emission_factor_for]
  all_goals norm_num

theorem summarize_events_unchanged (st : InMemoryStore) (u : String) (now : Int) :
    (summarize st u now).2.events = st.events := by
  cases h : lookupAssoc st.cache u with
  | some s => simp [summarize, h]
  | none =>
    cases h2 : lookupAssoc st.events u with
    | none => simp [summarize, h, h2]
    | some evs => simp [summarize, h, h2]

theorem summarize_lifetime (st : InMemoryStore) (u : String) (now : Int)
    (hc : lookupAssoc st.cache u = none) :
    (summarize st u now).1.lifetime_kg_co2 =
      (((lookupAssoc st.events u).getD []).map event_kg).sum := by
  cases he : lookupAssoc st.events u with
  | none => simp [summarize, hc, he]
  | some evs => simp [summarize, hc, he, foldl_summarize_step]

/-- C2 (counterexample): after an intervening add of a zero-factor event (bike, so
its computed kg is 0, and all legacy factors are non-negative), a fresh summarize
returns the same lifetime total: it does not strictly increase. -/
theorem C2_counterexample :
    ((summarize (add_event (summarize ⟨[("u", [⟨"u", "car", "", "", 1, 10, 900⟩])], []⟩ "u"
          1000).2 ⟨"u", "bike", "", "", 1, 5, 950⟩) "u" 1000).1.lifetime_kg_co2 =
      (summarize ⟨[("u", [⟨"u", "car", "", "", 1, 10, 900⟩])], []⟩ "u"
          1000).1.lifetime_kg_co2) ∧
    (0 ≤ event_kg ⟨"u", "bike", "", "", 1, 5, 950⟩) ∧
    ¬((summarize ⟨[("u", [⟨"u", "car", "", "", 1, 10, 900⟩])], []⟩ "u" 1000).1.lifetime_kg_co2 <
      (summarize (add_event (summarize ⟨[("u", [⟨"u", "car", "", "", 1, 10, 900⟩])], []⟩ "u"
          1000).2 ⟨"u", "bike", "", "", 1, 5, 950⟩) "u" 1000).1.lifetime_kg_co2) := by
  have hA : (summarize ⟨[("u", [⟨"u", "car", "", "", 1, 10, 900⟩])], []⟩ "u"
      1000).1.lifetime_kg_co2 = 9/5 := by
    simp [summarize, lookupAssoc, summarize_step, event_kg, emission_factor_for]
    norm_num
  have hB : (summarize (add_event (summarize ⟨[("u", [⟨"u", "car", "", "", 1, 10, 900⟩])], []⟩
      "u" 1000).2 ⟨"u", "bike", "", "", 1, 5, 950⟩) "u" 1000).1.lifetime_kg_co2 = 9/5 := by
    simp [summarize, add_event, appendEvent, eraseAssoc, upsertAssoc, lookupAssoc,
      summarize_step, event_kg, emission_factor_for]
    norm_num
  refine ⟨hB.trans hA.symm, ?_, ?_⟩
  · simp [event_kg, emission_factor_for]
  · rw [hA, hB]
    exact lt_irrefl _

/-- C2 (amended): with no cached summary for the user, summarize twice with no
intervening add returns identical summaries; add synchronously removes the user's
cache entry; a summarize after an intervening add for that user has lifetime equal
to the previous lifetime plus the added event's computed kg (kg as the code
computes it: legacy per-mode factor times distance), and the increase is strict
whenever that kg is positive. -/
theorem C2_amended_cache (st : InMemoryStore) (u : String) (ev : TransitEvent)
    (n1 n2 n3 : Int) (hc : lookupAssoc st.cache u = none) (hu : ev.user_id = u) :
    ((summarize (summarize st u n1).2 u n2).1 = (summarize st u n1).1) ∧
    (lookupAssoc (add_event (summarize st u n1).2 ev).cache u = none) ∧
    ((summarize (add_event (summarize st u n1).2 ev) u n3).1.lifetime_kg_co2 =
      (summarize st u n1).1.lifetime_kg_co2 + event_kg ev) ∧
    (0 < event_kg ev →
      (summarize st u n1).1.lifetime_kg_co2 <
        (summarize (add_event (summarize st u n1).2 ev) u n3).1.lifetime_kg_co2) := by
  subst hu
  have h2 : lookupAssoc (add_event (summarize st ev.user_id n1).2 ev).cache ev.user_id
      = none := by
    simp [add_event, lookupAssoc_erase_self]
  have h3 : (summarize (add_event (summarize st ev.user_id n1).2 ev) ev.user_id
        n3).1.lifetime_kg_co2 =
      (summarize st ev.user_id n1).1.lifetime_kg_co2 + event_kg ev := by
    rw [summarize_lifetime _ _ n3 h2, summarize_lifetime st _ n1 hc]
    simp [add_event, summarize_events_unchanged, lookupAssoc_appendEvent_self]
  refine ⟨?_, h2, h3, fun hkg => ?_⟩
  · cases he : lookupAssoc st.events ev.user_id with
    | none => simp [summarize, hc, he]
    | some evs =>
      have h1 : summarize st ev.user_id n1 =
          (evs.foldl (summarize_step n1) ⟨0, 0, 0⟩,
           ⟨st.events,
            upsertAssoc st.cache ev.user_id (evs.foldl (summarize_step n1) ⟨0, 0, 0⟩)⟩) := by
        simp [summarize, hc, he]
      rw [h1]
      simp [summarize, lookupAssoc_upsert_self]
  · rw [h3]
    exact lt_add_of_pos_right _ hkg

/-- C2 witness: a concrete car-event addition, through the amended theorem. -/
theorem C2_amended_cache_witness :
    (summarize (add_event (summarize ⟨[("v", [⟨"v", "car", "", "", 1, 10, 900⟩])], []⟩ "v"
        10).2 ⟨"v", "car", "", "", 1, 5, 950⟩) "v" 30).1.lifetime_kg_co2 =
      (summarize ⟨[("v", [⟨"v", "car", "", "", 1, 10, 900⟩])], []⟩ "v" 10).1.lifetime_kg_co2 +
        event_kg ⟨"v", "car", "", "", 1, 5, 950⟩ :=
  (C2_amended_cache ⟨[("v", [⟨"v", "car", "", "", 1, 10, 900⟩])], []⟩ "v"
    ⟨"v", "car", "", "", 1, 5, 950⟩ 10 20 30 rfl rfl).2.2.1

/-- Whitespace set used by the loader's trim lambda (" \t\r\n" in
src/emission_data_loader.cpp). -/
def isWsChar (c : Char) : Bool :=
  c = ' ' || c = '\t' || c = '\r' || c = '\n'

/-- Trim whitespace from both ends (the trim lambda in load_from_csv). -/
def trimChars (cs : List Char) : List Char :=
  ((cs.dropWhile isWsChar).reverse.dropWhile isWsChar).reverse

/-- Split a character list at every occurrence of sep; an empty input yields one
empty part, like the underlying stream reads. -/
def splitOnChar (sep : Char) : List Char → List (List Char)
  | [] => [[]]
  | c :: rest =>
    match splitOnChar sep rest with
    | [] => [[]]
    | cur :: parts => if c = sep then [] :: cur :: parts else (c :: cur) :: parts

/-- The sequence of lines std::getline produces from a string: split at newlines,
except that a trailing newline does not produce a final empty line and an empty
input produces no line at all. -/
def cppGetlines (cs : List Char) : List (List Char) :=
  match cs with
  | [] => []
  | _ =>
    let parts := splitOnChar (Char.ofNat 10) cs
    if parts.getLast? = some [] then parts.dropLast else parts

/-- Decimal value of a digit list (most significant first). -/
def digitsVal (cs : List Char) : Nat :=
  cs.foldl (fun acc c => acc * 10 + (c.toNat - 48)) 0

/-- Modelled behaviour of std::stod on the decimal forms the loader receives:
optional leading whitespace and sign, integer digits, optional fraction digits;
none when no digit is found (std::invalid_argument).  Exponent and hexadecimal
forms of std::stod are outside this model. -/
def parseStod (s : List Char) : Option ℚ :=
  let cs := s.dropWhile isWsChar
  let sign : ℚ := if cs.head? = some '-' then -1 else 1
  let cs2 := if cs.head? = some '-' ∨ cs.head? = some '+' then cs.tail else cs
  let ipart := cs2.takeWhile Char.isDigit
  let rest := cs2.dropWhile Char.isDigit
  let fpart :=
    match rest with
    | '.' :: r => r.takeWhile Char.isDigit
    | _ => []
  if ipart.isEmpty ∧ fpart.isEmpty then none
  else some (sign * ((digitsVal ipart : ℚ) + (digitsVal fpart : ℚ) / (10 : ℚ) ^ fpart.length))

/-- One data row of EmissionDataLoader::load_from_csv.  The five std::getline
field reads succeed exactly when the row has at least five comma-separated
fields, counting a trailing empty fifth field as missing (getline at
end-of-stream with nothing to read fails); any fields beyond the fifth are left
unread by the code. -/
def parseCsvRow (row_num : Nat) (line : List Char) : Except String EmissionFactor :=
  let parts := splitOnChar ',' line
  if parts.length < 5 ∨ (parts.length = 5 ∧ parts.getD 4 [] = []) then
    .error ("CSV format error at row " ++ toString row_num)
  else
    match parseStod (trimChars (parts.getD 3 [])) with
    | none => .error ("Failed to parse kg_co2_per_km at row " ++ toString row_num)
    | some kg =>
      .ok ⟨⟨trimChars (parts.getD 0 [])⟩, ⟨trimChars (parts.getD 1 [])⟩,
           ⟨trimChars (parts.getD 2 [])⟩, kg, ⟨trimChars (parts.getD 4 [])⟩, 0⟩

/-- The data-row loop of load_from_csv: row_num counts every line (the increment
happens before the blank-line skip), and empty lines are skipped. -/
def loadCsvRows : Nat → List (List Char) → Except String (List EmissionFactor)
  | _, [] => .ok []
  | row_num, line :: rest =>
    if line = [] then loadCsvRows (row_num + 1) rest
    else do
      let f ← parseCsvRow row_num line
      let fs ← loadCsvRows (row_num + 1) rest
      pure (f :: fs)

/-- EmissionDataLoader::load_from_csv: the first line is a header and is skipped
(an empty input has no line to read and errors); data rows start at row number 2. -/
def load_from_csv (s : String) : Except String (List EmissionFactor) :=
  match cppGetlines s.data with
  | [] => .error "CSV is empty"
  | _ :: data => loadCsvRows 2 data

/-- JSON values as produced by the external nlohmann parser (the text-to-tree
parse is a library call; the loader consumes the tree). -/
inductive Json where
  | null
  | bool (b : Bool)
  | num (q : ℚ)
  | str (s : String)
  | arr (items : List Json)
  | obj (fields : List (String × Json))

/-- item.at(key).get<std::string>(): missing key or non-string value raise a
json exception, which load_from_json wraps into its error. -/
def getRequiredString (fields : List (String × Json)) (key : String) : Except String String :=
  match lookupAssoc fields key with
  | some (.str s) => .ok s
  | some _ => .error ("JSON parsing error: field " ++ key ++ " has wrong type")
  | none => .error ("JSON parsing error: missing field " ++ key)

/-- item.at(key).get<double>(): accepts any JSON number. -/
def getRequiredNumber (fields : List (String × Json)) (key : String) : Except String ℚ :=
  match lookupAssoc fields key with
  | some (.num q) => .ok q
  | some _ => .error ("JSON parsing error: field " ++ key ++ " has wrong type")
  | none => .error ("JSON parsing error: missing field " ++ key)

/-- item.value(key, default) for strings: default when absent, error when the
value is present with a non-string type. -/
def getStringOr (fields : List (String × Json)) (key dflt : String) : Except String String :=
  match lookupAssoc fields key with
  | some (.str s) => .ok s
  | some _ => .error ("JSON parsing error: field " ++ key ++ " has wrong type")
  | none => .ok dflt

/-- item.value(key, default) for numbers. -/
def getNumberOr (fields : List (String × Json)) (key : String) (dflt : ℚ) : Except String ℚ :=
  match lookupAssoc fields key with
  | some (.num q) => .ok q
  | some _ => .error ("JSON parsing error: field " ++ key ++ " has wrong type")
  | none => .ok dflt

/-- static_cast<std::int64_t> of a double: truncation toward zero. -/
def ratTrunc (q : ℚ) : Int :=
  if 0 ≤ q then q.floor else q.ceil

/-- One item of the load_from_json loop, in the field order of the source. -/
def parseJsonItem (item : Json) : Except String EmissionFactor :=
  match item with
  | .obj fields => do
    let mode ← getRequiredString fields "mode"
    let fuel ← getStringOr fields "fuel_type" ""
    let size ← getStringOr fields "vehicle_size" ""
    let kg ← getRequiredNumber fields "kg_co2_per_km"
    let source ← getStringOr fields "source" "UNKNOWN"
    let upd ← getNumberOr fields "updated_at" 0
    pure ⟨mode, fuel, size, kg, source, ratTrunc upd⟩
  | _ => .error "Each factor item must be a JSON object"

def parseJsonItems : List Json → Except String (List EmissionFactor)
  | [] => .ok []
  | item :: rest => do
    let f ← parseJsonItem item
    let fs ← parseJsonItems rest
    pure (f :: fs)

/-- EmissionDataLoader::load_from_json, taken at the parsed JSON tree. -/
def load_from_json (j : Json) : Except String (List EmissionFactor) :=
  match j with
  | .arr items => parseJsonItems items
  | _ => .error "Expected JSON array of factors"

/-- C9 (counterexample): a data row with six comma-separated fields — a wrong
column count — does not abort the load: the five getline reads succeed, the sixth
field is silently left unread, and the row loads with source taken from the fifth
field. -/
theorem C9_counterexample :
    load_from_csv "mode,fuel_type,vehicle_size,kg_co2_per_km,source\ncar,petrol,small,0.5,SRC,EXTRA" =
      .ok [⟨"car", "petrol", "small", 1/2, "SRC", 0⟩] := by
  simp [load_from_csv, cppGetlines, splitOnChar, loadCsvRows, parseCsvRow, parseStod,
    trimChars, digitsVal, isWsChar, List.getD, bind, Except.bind, pure, Except.pure]
  norm_num

/-- C9 (amended): the CSV loader skips the header and blank lines and trims each of
the first five fields; it aborts with a descriptive error on a row with fewer than
five fields (including a row whose fifth field is empty at end of line, which ends
the stream early) or a non-numeric kg_co2_per_km, while fields beyond the fifth are
ignored without error; an empty input errors.  The JSON loader requires keys mode
and kg_co2_per_km, defaults fuel_type/vehicle_size to "", source to UNKNOWN and
updated_at to 0, and fails on a non-array top level, a non-object item or a missing
required field.  Failures are thrown, so no partial factor sequence reaches the
caller. -/
theorem C9_amended_loaders :
    (load_from_csv "anything,header\n\n  car , petrol , small , 0.5 , SRC \n" =
      .ok [⟨"car", "petrol", "small", 1/2, "SRC", 0⟩]) ∧
    (load_from_csv "h\na,b,c,0.5" = .error "CSV format error at row 2") ∧
    (load_from_csv "h\na,b,c,0.5," = .error "CSV format error at row 2") ∧
    (load_from_csv "h\nx,y,z,abc,src" = .error "Failed to parse kg_co2_per_km at row 2") ∧
    (load_from_csv "h\nbus,,,0.25,S2,IGNORED" = .ok [⟨"bus", "", "", 1/4, "S2", 0⟩]) ∧
    (load_from_csv "" = .error "CSV is empty") ∧
    (load_from_json (.num 3) = .error "Expected JSON array of factors") ∧
    (load_from_json (.arr [.num 1]) = .error "Each factor item must be a JSON object") ∧
    (load_from_json (.arr [.obj [("kg_co2_per_km", .num 1)]]) =
      .error "JSON parsing error: missing field mode") ∧
    (load_from_json (.arr [.obj [("mode", .str "car")]]) =
      .error "JSON parsing error: missing field kg_co2_per_km") ∧
    (load_from_json (.arr [.obj [("mode", .str "car"), ("kg_co2_per_km", .num (1/2))]]) =
      .ok [⟨"car", "", "", 1/2, "UNKNOWN", 0⟩]) := by
  refine ⟨?_, ?_, ?_, ?_, ?_, rfl, rfl, ?_, ?_, ?_, ?_⟩
  · simp [load_from_csv, cppGetlines, splitOnChar, loadCsvRows, parseCsvRow, parseStod,
      trimChars, digitsVal, isWsChar, List.getD, bind, Except.bind, pure, Except.pure]
    norm_num
  · simp [load_from_csv, cppGetlines, splitOnChar, loadCsvRows, parseCsvRow, List.getD,
      bind, Except.bind, pure, Except.pure, show toString 2 = "2" from rfl]
  · simp [load_from_csv, cppGetlines, splitOnChar, loadCsvRows, parseCsvRow, List.getD,
      bind, Except.bind, pure, Except.pure, show toString 2 = "2" from rfl]
  · simp [load_from_csv, cppGetlines, splitOnChar, loadCsvRows, parseCsvRow, parseStod,
      trimChars, digitsVal, isWsChar, List.getD, bind, Except.bind, pure, Except.pure,
      show toString 2 = "2" from rfl]
  · simp [load_from_csv, cppGetlines, splitOnChar, loadCsvRows, parseCsvRow, parseStod,
      trimChars, digitsVal, isWsChar, List.getD, bind, Except.bind, pure, Except.pure]
    norm_num
  · simp [load_from_json, parseJsonItems, parseJsonItem, getRequiredString, getStringOr,
      getRequiredNumber, getNumberOr, lookupAssoc, bind, Except.bind, pure, Except.pure]
  · simp [load_from_json, parseJsonItems, parseJsonItem, getRequiredString, getStringOr,
      getRequiredNumber, getNumberOr, lookupAssoc, bind, Except.bind, pure, Except.pure]
  · simp [load_from_json, parseJsonItems, parseJsonItem, getRequiredString, getStringOr,
      getRequiredNumber, getNumberOr, lookupAssoc, bind, Except.bind, pure, Except.pure]
  · simp [load_from_json, parseJsonItems, parseJsonItem, getRequiredString, getStringOr,
      getRequiredNumber, getNumberOr, lookupAssoc, ratTrunc, bind, Except.bind, pure,
      Except.pure]
    norm_num [Rat.floor]
